import Mathlib

/-!
Verification development: a shallow embedding of the deployment orchestration core
of the publish-store action (TypeScript), together with proofs about the
behaviour that the specification describes.

Conventions of the embedding:
* JavaScript numbers that are used as integer counters, byte sizes and
  millisecond delays are modelled as `Nat` (all uses in the source stay far
  below 2^53, where JS number arithmetic is exact).
* A thrown JavaScript `Error` value is modelled by `ErrVal`.  The dynamic
  class of the object (what `instanceof` inspects) is the `cls` field; the
  `wraps` field is ghost instrumentation counting how many times the original
  failure has been re-wrapped into a fresh `DeploymentError`.
* Asynchronous operations are modelled by their settled outcome
  (`Except ErrVal`); remote calls are parameters of the model, so a theorem
  quantifying over them covers every remote behaviour.
-/

deriving instance DecidableEq for Except

namespace PublishStore

/-- Dynamic class of a thrown error object.  `plainError` stands for any class
outside the DeploymentError hierarchy (plain `Error`, axios errors, ...). -/
inductive ErrClass
  | plainError
  | deploymentError
  | validationError
  | authenticationError
  | networkError
  | timeoutError
  | artifactError
deriving DecidableEq, Repr, BEq

/-- `error.constructor.name` for each modelled class. -/
def constructorName : ErrClass → String
  | .plainError => "Error"
  | .deploymentError => "DeploymentError"
  | .validationError => "ValidationError"
  | .authenticationError => "AuthenticationError"
  | .networkError => "NetworkError"
  | .timeoutError => "TimeoutError"
  | .artifactError => "ArtifactError"

/-- A thrown error value.  `ctxDuration`/`ctxVersion`/`ctxDryRun` record
whether the details object carries the corresponding context entry, `opLabel`
the `operation` entry; `wraps` is ghost provenance: how many times the
original failure has been re-wrapped. -/
structure ErrVal where
  cls : ErrClass
  message : String
  code : String
  retryable : Bool := false
  platform : Option String := none
  opLabel : Option String := none
  ctxDuration : Bool := false
  ctxVersion : Bool := false
  ctxDryRun : Bool := false
  wraps : Nat := 0
deriving DecidableEq, Repr

/-- JavaScript `String.prototype.includes` for a non-empty search string. -/
def jsIncludes (s sub : String) : Bool :=
  (s.splitOn sub).length ≥ 2

/-- ASCII lower-casing of one character (`toLowerCase` on the inputs in play
only ever meets ASCII). -/
def lowerChar (c : Char) : Char :=
  if 65 ≤ c.toNat ∧ c.toNat ≤ 90 then Char.ofNat (c.toNat + 32) else c

/-- JavaScript `String.prototype.toLowerCase` on ASCII strings. -/
def lowerString (s : String) : String := ⟨s.data.map lowerChar⟩

/-- JavaScript `String.prototype.endsWith`. -/
def strEndsWith (s suffix : String) : Bool :=
  decide (suffix.data.length ≤ s.data.length) &&
  (s.data.drop (s.data.length - suffix.data.length) == suffix.data)

/-! ## HTTP execution layer (src/services/http-client.ts) -/

/-- `RetryConfig` from src/types/index.ts. -/
structure RetryConfig where
  maxAttempts : Nat
  initialDelay : Nat
  maxDelay : Nat
  backoffFactor : Nat
  shouldRetry : ErrVal → Bool

/-- `DEFAULT_RETRY_CONFIG.shouldRetry`:
`error instanceof NetworkError || error instanceof TimeoutError`. -/
def defaultShouldRetry (e : ErrVal) : Bool :=
  e.cls == .networkError || e.cls == .timeoutError

/-- `DEFAULT_RETRY_CONFIG` from src/types/index.ts. -/
def DEFAULT_RETRY_CONFIG : RetryConfig :=
  { maxAttempts := 3
    initialDelay := 1000
    maxDelay := 10000
    backoffFactor := 2
    shouldRetry := defaultShouldRetry }

/-- `HttpClientService.calculateDelay`. -/
def calculateDelay (cfg : RetryConfig) (attempt : Nat) : Nat :=
  min (cfg.initialDelay * cfg.backoffFactor ^ (attempt - 1)) cfg.maxDelay

/-- Loop body of `HttpClientService.executeWithRetry`.  `op` gives the settled
outcome of the wrapped axios call on each (1-indexed) attempt; `fuel` is the
number of attempts that remain after the current one.  The second component is
the list of sleep delays actually awaited, in order. -/
def executeWithRetryGo {α : Type} (cfg : RetryConfig) (op : Nat → Except ErrVal α)
    (attempt : Nat) : Nat → Except ErrVal α × List Nat
  | 0 => (op attempt, [])
  | fuel + 1 =>
    match op attempt with
    | .ok a => (.ok a, [])
    | .error e =>
      if cfg.shouldRetry e then
        let rest := executeWithRetryGo cfg op (attempt + 1) fuel
        (rest.1, calculateDelay cfg attempt :: rest.2)
      else (.error e, [])

/-- `HttpClientService.executeWithRetry`: attempts run from 1 to
`cfg.maxAttempts`; on failure the raw error is rethrown unchanged when the
attempt budget is spent or `cfg.shouldRetry` rejects it, otherwise the client
sleeps `calculateDelay` and tries again.  No error classification happens
here: the error thrown by the transport is propagated as-is. -/
def executeWithRetry {α : Type} (cfg : RetryConfig) (op : Nat → Except ErrVal α) :
    Except ErrVal α × List Nat :=
  executeWithRetryGo cfg op 1 (cfg.maxAttempts - 1)

/-! ## Retry primitive (src/utils/helpers.ts, withRetry) -/

/-- Options record of `withRetry` in src/utils/helpers.ts. -/
structure WithRetryOptions where
  maxAttempts : Nat
  initialDelay : Nat
  maxDelay : Nat
  backoffFactor : Nat
  shouldRetry : Option (ErrVal → Bool)

/-- The delay computed before retrying after failing `attempt`:
`Math.min(initialDelay * Math.pow(backoffFactor, attempt - 1), maxDelay)`. -/
def retryDelay (o : WithRetryOptions) (attempt : Nat) : Nat :=
  min (o.initialDelay * o.backoffFactor ^ (attempt - 1)) o.maxDelay

/-- The retry decision: when no predicate is supplied every failure is
retried (subject to the attempt budget). -/
def wantsRetry (o : WithRetryOptions) (e : ErrVal) : Bool :=
  match o.shouldRetry with
  | some p => p e
  | none => true

/-- Loop body of `withRetry`; same shape as the HTTP client loop. -/
def withRetryGo {α : Type} (o : WithRetryOptions) (op : Nat → Except ErrVal α)
    (attempt : Nat) : Nat → Except ErrVal α × List Nat
  | 0 => (op attempt, [])
  | fuel + 1 =>
    match op attempt with
    | .ok a => (.ok a, [])
    | .error e =>
      if wantsRetry o e then
        let rest := withRetryGo o op (attempt + 1) fuel
        (rest.1, retryDelay o attempt :: rest.2)
      else (.error e, [])

/-- `withRetry` from src/utils/helpers.ts. -/
def withRetry {α : Type} (o : WithRetryOptions) (op : Nat → Except ErrVal α) :
    Except ErrVal α × List Nat :=
  withRetryGo o op 1 (o.maxAttempts - 1)

/-! ## Error wrapping (src/deployers/base-deployer.ts, src/core/action.ts) -/

/-- `BaseDeployer.isRetryableError`: substring heuristic on the message. -/
def isRetryableError (e : ErrVal) : Bool :=
  jsIncludes e.message "network" || jsIncludes e.message "timeout" ||
  jsIncludes e.message "ECONNRESET" || jsIncludes e.message "ETIMEDOUT" ||
  jsIncludes e.message "rate limit" || jsIncludes e.message "429" ||
  jsIncludes e.message "too many requests" ||
  jsIncludes e.message "500" || jsIncludes e.message "502" ||
  jsIncludes e.message "503" || jsIncludes e.message "504"

/-- `BaseDeployer.handleDeploymentError`: builds a fresh `DeploymentError`
whose message is the caught message, whose code is the caught constructor
name, and whose details carry operation, duration, version and dryRun. -/
def handleDeploymentError (platform : String) (operation : Option String)
    (e : ErrVal) : ErrVal :=
  { cls := .deploymentError
    message := e.message
    code := constructorName e.cls
    retryable := isRetryableError e
    platform := some platform
    opLabel := operation
    ctxDuration := true
    ctxVersion := true
    ctxDryRun := true
    wraps := e.wraps + 1 }

/-- The catch block of `AndroidDeployer.deploy` / `IOSDeployer.deploy`: every
failure of the lifecycle body is passed through `handleDeploymentError` with
the fixed operation label and rethrown. -/
def deployBoundary {α : Type} (platform operation : String)
    (body : Except ErrVal α) : Except ErrVal α :=
  match body with
  | .ok v => .ok v
  | .error e => .error (handleDeploymentError platform (some operation) e)

/-- The catch block of `PublishStoreAction.performDeployment` (src/core/action.ts
lines 147-165): any `Error` is re-wrapped into a new `DeploymentError` with
details duration, dryRun and version (no operation label), retryable iff the
caught error is a `TimeoutError` instance. -/
def performDeploymentWrap (platform : String) (e : ErrVal) : ErrVal :=
  { cls := .deploymentError
    message := e.message
    code := constructorName e.cls
    retryable := e.cls == .timeoutError
    platform := some platform
    opLabel := none
    ctxDuration := true
    ctxVersion := true
    ctxDryRun := true
    wraps := e.wraps + 1 }

/-- Failure path of `performDeployment` applied to the outcome of the
deployment step. -/
def performDeploymentErrors {α : Type} (platform : String)
    (body : Except ErrVal α) : Except ErrVal α :=
  match body with
  | .ok v => .ok v
  | .error e => .error (performDeploymentWrap platform e)

/-! ## Orchestrator artifact validation (src/core/action.ts, validateArtifact) -/

/-- Observable facts about the artifact file used by the validators. -/
structure ArtifactFile where
  found : Bool
  size : Nat
  extension : String
deriving DecidableEq, Repr

/-- Hard size ceiling of `PublishStoreAction.validateArtifact`:
200 MiB for android, 250 MiB for ios. -/
def hardCeiling (platform : String) : Nat :=
  if platform == "android" then 200 * 1024 * 1024 else 250 * 1024 * 1024

/-- Expected artifact extension per platform. -/
def expectedExtension (platform : String) : String :=
  if platform == "android" then ".aab" else ".ipa"

/-- `PublishStoreAction.validateArtifact`: returns the thrown error, if any.
The thrown objects are constructed with `new DeploymentError(...)`, so their
dynamic class is `deploymentError`.  Interpolated parts of the messages are
omitted. -/
def orchestratorValidateArtifact (platform : String) (art : ArtifactFile) :
    Option ErrVal :=
  if !art.found then
    some { cls := .deploymentError, message := "Artifact file not found"
           code := "ARTIFACT_NOT_FOUND", platform := some platform }
  else if lowerString art.extension != expectedExtension platform then
    some { cls := .deploymentError, message := "Invalid artifact type"
           code := "INVALID_ARTIFACT_TYPE", platform := some platform }
  else if art.size > hardCeiling platform then
    some { cls := .deploymentError
           message := "Artifact size exceeds maximum allowed size"
           code := "ARTIFACT_TOO_LARGE", platform := some platform }
  else
    none

/-- `PublishStoreAction.performDeployment` as a pipeline: artifact validation
runs first; only when it passes is the deployer invoked (`deployBody` is the
outcome of `deployer.deploy` together with the list of network calls it
performed).  Every failure is wrapped by the catch block.  The second
component of the result is the list of network calls performed. -/
def performDeploymentNet (platform : String) (art : ArtifactFile)
    (deployBody : Except ErrVal Unit × List String) :
    Except ErrVal Unit × List String :=
  match orchestratorValidateArtifact platform art with
  | some e => (.error (performDeploymentWrap platform e), [])
  | none => (performDeploymentErrors platform deployBody.1, deployBody.2)

/-! ## Base deployer artifact validation (src/deployers/base-deployer.ts) -/

/-- `AndroidDeployer.getMaxArtifactSize`. -/
def androidMaxArtifactSize : Nat := 200 * 1024 * 1024

/-- `IOSDeployer.getMaxArtifactSize`. -/
def iosMaxArtifactSize : Nat := 250 * 1024 * 1024

/-- `BaseDeployer.validateArtifact`: false when the file is missing, the
lower-cased extension differs from the expected one, or the size exceeds the
platform maximum; true otherwise. -/
def baseDeployerValidateArtifact (expectedExt : String) (maxSize : Nat)
    (art : ArtifactFile) : Bool :=
  if !art.found then false
  else if lowerString art.extension != expectedExt then false
  else if art.size > maxSize then false
  else true

/-! ## Input validator artifact pass (services/validator.ts, validateArtifact) -/

/-- Warnings the input-validation artifact pass can emit. -/
inductive ArtifactWarning
  | oversizeAdvisory
  | unusuallySmall
  | sizeUnknown
deriving DecidableEq, Repr

/-- Advisory ceiling of the input validator: 150 MiB android, 200 MiB ios. -/
def advisoryCeiling (platform : String) : Nat :=
  if platform == "android" then 150 * 1024 * 1024 else 200 * 1024 * 1024

/-- `InputValidator.validateArtifact`: pushes error strings and warnings.
A missing file short-circuits; an extension mismatch adds an error but the
size checks still run; a size above the advisory ceiling or below 1 MiB adds
a warning (never an error); an unreadable size adds a warning. -/
def validatorValidateArtifact (platform : String) (artifactPath : String)
    (found : Bool) (size? : Option Nat) : List String × List ArtifactWarning :=
  if !found then (["Artifact file not found"], [])
  else
    let errs :=
      if !(strEndsWith (lowerString artifactPath) (expectedExtension platform)) then
        ["Invalid artifact type"]
      else []
    let warns :=
      match size? with
      | none => [ArtifactWarning.sizeUnknown]
      | some size =>
        (if size > advisoryCeiling platform then [ArtifactWarning.oversizeAdvisory] else []) ++
        (if size < 1024 * 1024 then [ArtifactWarning.unusuallySmall] else [])
    (errs, warns)

/-! ## Android upload state machine (src/deployers/android-deployer.ts) -/

/-- Remote calls issued by `performGooglePlayDeployment`, in order.  The
boolean on `deleteCall` records whether the compensating deletion succeeded
(its failure is swallowed by `cleanupEditSession`). -/
inductive AndroidEvent
  | createEditCall
  | uploadCall
  | trackCall
  | commitCall
  | deleteCall (succeeded : Bool)
deriving DecidableEq, Repr

/-- Settled outcomes of the four Google Play sub-operations plus whether the
compensating `edits.delete` would succeed.  Each failing sub-operation throws
the `NetworkError` built in its own catch block; the model takes these
already-materialised errors as inputs. -/
structure AndroidRemote where
  createEdit : Except ErrVal String
  upload : Except ErrVal Nat
  trackUpdate : Except ErrVal Unit
  commit : Except ErrVal Unit
  deleteOk : Bool

/-- Result and call trace of one run of `performGooglePlayDeployment`. -/
structure AndroidOutcome where
  result : Except ErrVal Nat
  trace : List AndroidEvent
deriving DecidableEq, Repr

/-- `AndroidDeployer.performGooglePlayDeployment`: create the edit session;
inside the inner try, upload the bundle, update the track and commit; the
inner catch runs `cleanupEditSession` (whose own failure is swallowed) and
rethrows the original error.  A failure of `createEditSession` happens before
the inner try, so no deletion is attempted for it. -/
def performGooglePlayDeployment (r : AndroidRemote) : AndroidOutcome :=
  match r.createEdit with
  | .error e => { result := .error e, trace := [.createEditCall] }
  | .ok _editId =>
    match r.upload with
    | .error e =>
      { result := .error e
        trace := [.createEditCall, .uploadCall, .deleteCall r.deleteOk] }
    | .ok versionCode =>
      match r.trackUpdate with
      | .error e =>
        { result := .error e
          trace := [.createEditCall, .uploadCall, .trackCall, .deleteCall r.deleteOk] }
      | .ok _ =>
        match r.commit with
        | .error e =>
          { result := .error e
            trace := [.createEditCall, .uploadCall, .trackCall, .commitCall,
                      .deleteCall r.deleteOk] }
        | .ok _ =>
          { result := .ok versionCode
            trace := [.createEditCall, .uploadCall, .trackCall, .commitCall] }

/-! ## iOS upload path (src/deployers/ios-deployer.ts, subprocess based) -/

/-- File-system and subprocess events of `performRealAppStoreUpload`.  The
boolean on `altoolInvoke` records whether the credential file existed while
the upload tool ran; the boolean on `keyFileUnlink` whether the deletion
succeeded. -/
inductive IosEvent
  | keyFileWrite
  | altoolInvoke (keyFilePresent : Bool)
  | keyFileUnlink (succeeded : Bool)
deriving DecidableEq, Repr

/-- Environment of one run: outcome of writing the temporary API key file,
outcome of the altool upload, and whether `fs.unlink` would succeed. -/
structure IosUploadScenario where
  keyFileCreate : Except ErrVal Unit
  uploadRun : Except ErrVal Unit
  unlinkOk : Bool

/-- Result, event trace, and whether the credential file still exists after
the run. -/
structure IosUploadOutcome where
  result : Except ErrVal Unit
  trace : List IosEvent
  keyFileAtEnd : Bool
deriving DecidableEq, Repr

/-- `IOSDeployer.performRealAppStoreUpload`: write the temporary API key
file; inside try, invoke altool (the file exists for the whole invocation);
the finally block always runs `cleanupTemporaryApiKeyFile`, which attempts
`fs.unlink` and swallows its failure.  If writing the key file fails, the try
block is never entered, so neither the upload nor the unlink happen. -/
def performRealAppStoreUpload (s : IosUploadScenario) : IosUploadOutcome :=
  match s.keyFileCreate with
  | .error e => { result := .error e, trace := [], keyFileAtEnd := false }
  | .ok _ =>
    { result := s.uploadRun
      trace := [.keyFileWrite, .altoolInvoke true, .keyFileUnlink s.unlinkOk]
      keyFileAtEnd := !s.unlinkOk }

/-! ## Bounded execution (src/utils/helpers.ts, withTimeout) -/

/-- The error built by `new TimeoutError(...)` inside `withTimeout`
(code TIMEOUT_ERROR, retryable true). -/
def timeoutErrVal : ErrVal :=
  { cls := .timeoutError, message := "Operation timed out"
    code := "TIMEOUT_ERROR", retryable := true }

/-- The error built by the abort listener:
`new DeploymentError('Operation was aborted', 'ABORTED')`. -/
def abortErrVal : ErrVal :=
  { cls := .deploymentError, message := "Operation was aborted"
    code := "ABORTED", retryable := false }

/-- One execution environment for `withTimeout`.  `timerLag ≥ 0` models that
`setTimeout(f, d)` runs `f` at `d + lag`, never before `d`.  `settleAt` is
the instant the wrapped promise settles (none: it never settles), `abortAt`
the instant the external signal fires. -/
structure TimeoutScenario (α : Type) where
  timeoutMs : Nat
  timerLag : Nat
  abortAt : Option Nat
  settleAt : Option Nat
  settleResult : Except ErrVal α

/-- `withTimeout` under first-settlement-wins promise semantics: the wrapper
promise settles with whichever of the three routes (underlying settlement,
abort listener, timer callback) runs first, and later settlement attempts are
ignored.  Returns the outcome and the instant the wrapper settles. -/
def withTimeoutRun {α : Type} (s : TimeoutScenario α) : Except ErrVal α × Nat :=
  let tFire := s.timeoutMs + s.timerLag
  match s.settleAt, s.abortAt with
  | none, none => (.error timeoutErrVal, tFire)
  | some ts, none =>
    if ts < tFire then (s.settleResult, ts) else (.error timeoutErrVal, tFire)
  | none, some ta =>
    if ta < tFire then (.error abortErrVal, ta) else (.error timeoutErrVal, tFire)
  | some ts, some ta =>
    if ts < tFire && ts < ta then (s.settleResult, ts)
    else if ta < tFire then (.error abortErrVal, ta)
    else (.error timeoutErrVal, tFire)

/-! ## Base64 helpers (src/utils/helpers.ts) -/

/-- The base64 alphabet, indexed by sextet value. -/
def b64Chars : List Char :=
  "ABCDEFGHIJKLMNOPQRSTUVWXYZabcdefghijklmnopqrstuvwxyz0123456789+/".data

/-- Character for a sextet (only used with arguments below 64). -/
def encodeB64Char (n : Nat) : Char := b64Chars.getD n 'A'

/-- Index of a character in a list, if present. -/
def lookupIdx : List Char → Char → Option Nat
  | [], _ => none
  | c :: cs, x => if x = c then some 0 else (lookupIdx cs x).map (· + 1)

/-- Sextet value of a base64 character. -/
def decodeB64Char (c : Char) : Option Nat := lookupIdx b64Chars c

/-- RFC 4648 base64 encoding of a byte list (arguments are bytes < 256),
as produced by `Buffer.prototype.toString` with encoding base64. -/
def b64EncodeBytes : List Nat → List Char
  | [] => []
  | [a] => [encodeB64Char (a / 4), encodeB64Char (a % 4 * 16), '=', '=']
  | [a, b] => [encodeB64Char (a / 4), encodeB64Char (a % 4 * 16 + b / 16),
               encodeB64Char (b % 16 * 4), '=']
  | a :: b :: c :: rest =>
    encodeB64Char (a / 4) :: encodeB64Char (a % 4 * 16 + b / 16) ::
    encodeB64Char (b % 16 * 4 + c / 64) :: encodeB64Char (c % 64) ::
    b64EncodeBytes rest

/-- Group-wise base64 decoding.  On every string it accepts it agrees with
the lenient Node decoder, and every string it rejects fails the
re-encode-equality test of `isValidBase64` under either decoder (the image of
`b64EncodeBytes` is accepted here), so `isValidBase64` below coincides with
the source predicate. -/
def b64DecodeBytes : List Char → Option (List Nat)
  | [] => some []
  | c1 :: c2 :: c3 :: c4 :: rest => do
    let s1 ← decodeB64Char c1
    let s2 ← decodeB64Char c2
    if c3 = '=' then
      if c4 = '=' ∧ rest = [] then pure [s1 * 4 + s2 / 16] else none
    else do
      let s3 ← decodeB64Char c3
      if c4 = '=' then
        if rest = [] then pure [s1 * 4 + s2 / 16, s2 % 16 * 16 + s3 / 4] else none
      else do
        let s4 ← decodeB64Char c4
        let tail ← b64DecodeBytes rest
        pure ((s1 * 4 + s2 / 16) :: (s2 % 16 * 16 + s3 / 4) :: (s3 % 4 * 64 + s4) :: tail)
  | _ => none

/-- `encodeBase64` from src/utils/helpers.ts:
`Buffer.from(str, 'utf-8').toString('base64')`.  A JS string is modelled by
its UTF-8 byte sequence (`Buffer.from` with encoding utf-8 and
`toString('utf-8')` translate between the two losslessly), so the model takes
the byte list directly. -/
def encodeBase64 (bytes : List Nat) : String := ⟨b64EncodeBytes bytes⟩

/-- `isValidBase64` from src/utils/helpers.ts:
`Buffer.from(str, 'base64').toString('base64') === str`. -/
def isValidBase64 (s : String) : Bool :=
  match b64DecodeBytes s.data with
  | some bs => encodeBase64 bs == s
  | none => false

/-- `decodeBase64` from src/utils/helpers.ts: throws (`none`) unless
`isValidBase64`, otherwise returns the decoded bytes (the UTF-8 byte sequence
of the JS string it returns). -/
def decodeBase64 (s : String) : Option (List Nat) :=
  if isValidBase64 s then b64DecodeBytes s.data else none

/-! ## Concrete values used by individual claims -/

/-- The raw axios failure for an HTTP 503 response: its dynamic class is
outside the DeploymentError hierarchy. -/
def rawServer503 : ErrVal :=
  { cls := .plainError, message := "Request failed with status code 503", code := "" }

/-- Scenario D of the specification: the transport yields a 503 failure on
attempt 1 and a 200 response on every later attempt. -/
def scenario503 (attempt : Nat) : Except ErrVal Nat :=
  if attempt = 1 then .error rawServer503 else .ok 200

/-- The same scenario when the first failure is already typed as a
`NetworkError` instance (as the deployers construct them). -/
def networkTyped503 : ErrVal :=
  { cls := .networkError, message := "Service unavailable (503)"
    code := "NETWORK_ERROR", retryable := true }

/-- Scenario D with a NetworkError-typed first failure. -/
def scenario503Typed (attempt : Nat) : Except ErrVal Nat :=
  if attempt = 1 then .error networkTyped503 else .ok 200

/-- A failure raised inside a platform deployer lifecycle. -/
def lifecycleFailure : ErrVal :=
  { cls := .networkError, message := "boom", code := "NETWORK_ERROR", retryable := true }

/-- The error that reaches the caller of `performDeployment` when
`lifecycleFailure` is raised inside the android deployer lifecycle. -/
def doublyWrappedBoom : ErrVal :=
  { cls := .deploymentError, message := "boom", code := "DeploymentError"
    retryable := false, platform := some "android", opLabel := none
    ctxDuration := true, ctxVersion := true, ctxDryRun := true, wraps := 2 }

/-- The error thrown by the orchestrator hard size check. -/
def artifactTooLargeError : ErrVal :=
  { cls := .deploymentError, message := "Artifact size exceeds maximum allowed size"
    code := "ARTIFACT_TOO_LARGE", platform := some "android" }

/-- An android artifact one byte over the 200 MiB hard ceiling. -/
def oversizedAndroidArtifact : ArtifactFile :=
  { found := true, size := 200 * 1024 * 1024 + 1, extension := ".aab" }

/-- The NetworkError produced when the AAB upload sub-operation fails. -/
def androidUploadFailure : ErrVal :=
  { cls := .networkError, message := "Failed to upload AAB to Google Play"
    code := "NETWORK_ERROR", retryable := true }

/-- A run in which the edit session opens, the bundle upload fails, and the
compensating deletion itself fails. -/
def androidRemoteUploadFails : AndroidRemote :=
  { createEdit := .ok "edit-1", upload := .error androidUploadFailure
    trackUpdate := .ok (), commit := .ok (), deleteOk := false }

/-- A bounded operation that never settles and is never aborted. -/
def neverSettles : TimeoutScenario Nat :=
  { timeoutMs := 5000, timerLag := 0, abortAt := none, settleAt := none
    settleResult := .ok 0 }

/-- Options for the C2 witness run. -/
def witnessRetryOptions : WithRetryOptions :=
  { maxAttempts := 3, initialDelay := 100, maxDelay := 500, backoffFactor := 3
    shouldRetry := some (fun e => e.retryable) }

/-- Operation for the C2 witness run: retryable failures on attempts 1 and 2,
success on attempt 3. -/
def witnessRetryOp (attempt : Nat) : Except ErrVal Nat :=
  if attempt ≤ 2 then .error networkTyped503 else .ok 7

/-- An iOS upload run where altool fails and the key file unlink succeeds. -/
def iosFailedUploadScenario : IosUploadScenario :=
  { keyFileCreate := .ok ()
    uploadRun := .error { cls := .deploymentError
                          message := "App Store upload failed"
                          code := "ALTOOL_UPLOAD_FAILED" }
    unlinkOk := true }

end PublishStore

namespace PublishStore

/-! # Theorems -/

/-- C1 counterexample: under `DEFAULT_RETRY_CONFIG`, a raw 503 transport
failure on the first attempt is not classified into a retryable NetworkError;
`executeWithRetry` rethrows it unchanged after the first attempt with no
retry delay, so the scenario 503-then-200 does not end in success with one
delay as the claim states. -/
theorem httpRetry_503_not_classified_cex :
    executeWithRetry DEFAULT_RETRY_CONFIG scenario503 = (.error rawServer503, []) ∧
    (executeWithRetry DEFAULT_RETRY_CONFIG scenario503).1 ≠ .ok 200 ∧
    (executeWithRetry DEFAULT_RETRY_CONFIG scenario503).2.length ≠ 1 := by
  decide

/-- C1 amended: the HTTP execution layer performs no error classification;
it retries only failures the configured predicate accepts, and the default
predicate accepts exactly NetworkError/TimeoutError instances.  A raw 503
propagates immediately with no delay, while a NetworkError-typed 503 followed
by a 200 yields success after exactly one retry delay of 1000 ms. -/
theorem httpRetry_predicate_amended :
    executeWithRetry DEFAULT_RETRY_CONFIG scenario503 = (.error rawServer503, []) ∧
    executeWithRetry DEFAULT_RETRY_CONFIG scenario503Typed = (.ok 200, [1000]) ∧
    defaultShouldRetry rawServer503 = false ∧
    defaultShouldRetry networkTyped503 = true := by
  decide

/-- C3 counterexample: a NetworkError raised inside the android deployer
lifecycle reaches the caller of `performDeployment` wrapped twice, not once:
the deployer boundary wraps it and the orchestrator catch block wraps the
result again, losing the operation label on the way. -/
theorem deployError_double_wrap_cex :
    performDeploymentErrors "android"
      (deployBoundary "android" "Google Play deployment"
        (.error lifecycleFailure : Except ErrVal Unit)) = .error doublyWrappedBoom ∧
    doublyWrappedBoom.wraps = 2 ∧
    doublyWrappedBoom.wraps ≠ 1 ∧
    doublyWrappedBoom.opLabel = none := by
  decide

/-- C3 amended: the deployer boundary wraps a lifecycle failure exactly once
into a DeploymentError enriched with platform, duration, version, dry-run
flag and operation label; the orchestrator deployment step then wraps that
error a second time (same message, no operation label), so the caller
receives a doubly wrapped DeploymentError whose message is the original
message — the failure is never discarded. -/
theorem deployError_wrap_amended (platform op : String) (e0 : ErrVal) :
    deployBoundary platform op (.error e0 : Except ErrVal Unit) =
      .error (handleDeploymentError platform (some op) e0) ∧
    (handleDeploymentError platform (some op) e0).message = e0.message ∧
    (handleDeploymentError platform (some op) e0).opLabel = some op ∧
    (handleDeploymentError platform (some op) e0).wraps = e0.wraps + 1 ∧
    performDeploymentErrors platform
      (deployBoundary platform op (.error e0 : Except ErrVal Unit)) =
      .error (performDeploymentWrap platform (handleDeploymentError platform (some op) e0)) ∧
    (performDeploymentWrap platform (handleDeploymentError platform (some op) e0)).message
      = e0.message ∧
    (performDeploymentWrap platform (handleDeploymentError platform (some op) e0)).wraps
      = e0.wraps + 2 ∧
    (performDeploymentWrap platform (handleDeploymentError platform (some op) e0)).opLabel
      = none ∧
    (performDeploymentWrap platform (handleDeploymentError platform (some op) e0)).cls
      = .deploymentError :=
  ⟨rfl, rfl, rfl, rfl, rfl, rfl, rfl, rfl, rfl⟩

/-- C4: in the android upload machine, a failure of `createEditSession`
propagates with no deletion ever attempted, while any failure of the bundle
upload, track update, or commit triggers an attempted compensating deletion
(whose own success or failure does not change the outcome) and the original
failure still propagates. -/
theorem android_compensation_spec (r : AndroidRemote) :
    (∀ e, r.createEdit = .error e →
      (performGooglePlayDeployment r).result = .error e ∧
      ∀ b, AndroidEvent.deleteCall b ∉ (performGooglePlayDeployment r).trace) ∧
    (∀ sid, r.createEdit = .ok sid →
      ∀ e, (performGooglePlayDeployment r).result = .error e →
        AndroidEvent.deleteCall r.deleteOk ∈ (performGooglePlayDeployment r).trace ∧
        (r.upload = .error e ∨ r.trackUpdate = .error e ∨ r.commit = .error e)) := by
  obtain ⟨ce, up, tr, co, del⟩ := r
  constructor
  · rintro e rfl
    simp [performGooglePlayDeployment]
  · rintro sid rfl e hres
    cases up with
    | error eu =>
      simp [performGooglePlayDeployment] at hres ⊢
      tauto
    | ok vc =>
      cases tr with
      | error et =>
        simp [performGooglePlayDeployment] at hres ⊢
        tauto
      | ok u =>
        cases co with
        | error ec =>
          simp [performGooglePlayDeployment] at hres ⊢
          tauto
        | ok u2 =>
          simp [performGooglePlayDeployment] at hres

/-- C4 witness: concrete run where the session opens, the upload fails and
the compensating deletion itself fails: the deletion is attempted and the
upload failure is the outcome. -/
theorem android_compensation_spec_witness :
    androidRemoteUploadFails.createEdit = .ok "edit-1" ∧
    (performGooglePlayDeployment androidRemoteUploadFails).result =
      .error androidUploadFailure ∧
    AndroidEvent.deleteCall false ∈
      (performGooglePlayDeployment androidRemoteUploadFails).trace := by
  have h := (android_compensation_spec androidRemoteUploadFails).2 "edit-1" rfl
    androidUploadFailure rfl
  exact ⟨rfl, rfl, h.1⟩

/-- C7: under first-settlement-wins promise semantics, a wrapped operation
that never settles makes `withTimeout` fail with the TimeoutError at the
timer instant, which is at or after the configured deadline and never
before; a settlement at or after the timer instant is never delivered; an
abort firing before the timer yields the ABORTED DeploymentError, an error
distinct from the TimeoutError. -/
theorem withTimeout_bounds_spec {α : Type} (s : TimeoutScenario α) :
    (s.settleAt = none → s.abortAt = none →
      withTimeoutRun s = (.error timeoutErrVal, s.timeoutMs + s.timerLag) ∧
      s.timeoutMs ≤ s.timeoutMs + s.timerLag) ∧
    (∀ ts, s.settleAt = some ts → s.abortAt = none →
      s.timeoutMs + s.timerLag ≤ ts →
      withTimeoutRun s = (.error timeoutErrVal, s.timeoutMs + s.timerLag)) ∧
    (∀ ta, s.abortAt = some ta → s.settleAt = none →
      ta < s.timeoutMs + s.timerLag →
      withTimeoutRun s = (.error abortErrVal, ta)) ∧
    timeoutErrVal.code = "TIMEOUT_ERROR" ∧ abortErrVal.code = "ABORTED" ∧
    timeoutErrVal.cls ≠ abortErrVal.cls := by
  obtain ⟨tm, lag, ab, st, res⟩ := s
  refine ⟨?_, ?_, ?_, rfl, rfl, by decide⟩
  · rintro rfl rfl
    exact ⟨rfl, Nat.le_add_right tm lag⟩
  · rintro ts rfl rfl hts
    dsimp only at hts ⊢
    simp only [withTimeoutRun]
    rw [if_neg (by omega)]
  · rintro ta rfl rfl hta
    dsimp only at hta ⊢
    simp only [withTimeoutRun]
    rw [if_pos hta]

/-- C7 witness: with a 5000 ms deadline and an exact timer, the
never-settling operation times out at 5000 ms, and the same scenario with an
abort at 100 ms fails with the ABORTED error instead. -/
theorem withTimeout_bounds_spec_witness :
    withTimeoutRun neverSettles = (.error timeoutErrVal, 5000) ∧
    withTimeoutRun { neverSettles with abortAt := some 100 } =
      (.error abortErrVal, 100) := by
  have h1 := (withTimeout_bounds_spec neverSettles).1 rfl rfl
  have h2 := (withTimeout_bounds_spec
    { neverSettles with abortAt := some 100 }).2.2.1 100 rfl rfl (by decide)
  exact ⟨h1.1, h2⟩

/-- C8: whenever the temporary API key file is created, the altool
invocation runs with the credential file present, the unlink is attempted
immediately after the invocation on both the success and the failure path,
the upload outcome is returned unchanged (unlink failures are swallowed),
and the file is gone afterwards exactly when the unlink succeeds. -/
theorem ios_credential_file_scoped (s : IosUploadScenario)
    (h : s.keyFileCreate = .ok ()) :
    (performRealAppStoreUpload s).result = s.uploadRun ∧
    (performRealAppStoreUpload s).trace =
      [.keyFileWrite, .altoolInvoke true, .keyFileUnlink s.unlinkOk] ∧
    (performRealAppStoreUpload s).keyFileAtEnd = !s.unlinkOk := by
  obtain ⟨kc, ur, uo⟩ := s
  cases h
  exact ⟨rfl, rfl, rfl⟩

/-- A successful attempt stops the retry loop immediately with no delay. -/
theorem withRetryGo_ok {α : Type} (o : WithRetryOptions) (op : Nat → Except ErrVal α)
    (a : Nat) (v : α) (h : op a = .ok v) :
    ∀ fuel, withRetryGo o op a fuel = (.ok v, []) := by
  intro fuel
  cases fuel with
  | zero => simp [withRetryGo, h]
  | succ f => simp [withRetryGo, h]

/-- A failure the predicate rejects stops the loop immediately with no
further delay. -/
theorem withRetryGo_stop {α : Type} (o : WithRetryOptions) (op : Nat → Except ErrVal α)
    (a : Nat) (e : ErrVal) (h : op a = .error e) (hnr : wantsRetry o e = false) :
    ∀ fuel, withRetryGo o op a fuel = (.error e, []) := by
  intro fuel
  cases fuel with
  | zero => simp [withRetryGo, h]
  | succ f => simp [withRetryGo, h, hnr]

/-- One retried failure: the loop sleeps the computed delay and continues at
the next attempt. -/
theorem withRetryGo_retry_step {α : Type} (o : WithRetryOptions)
    (op : Nat → Except ErrVal α) (a f : Nat) (e : ErrVal)
    (h : op a = .error e) (hre : wantsRetry o e = true) :
    withRetryGo o op a (f + 1) =
      ((withRetryGo o op (a + 1) f).1,
        retryDelay o a :: (withRetryGo o op (a + 1) f).2) := by
  simp [withRetryGo, h, hre]

/-- Skipping a block of retried failures: if attempts `a, …, a + j - 1` all
fail retryably, the loop behaves like the loop started at attempt `a + j`,
prefixed with the corresponding delays. -/
theorem withRetryGo_skip {α : Type} (o : WithRetryOptions) (op : Nat → Except ErrVal α) :
    ∀ (j a fuel : Nat), j ≤ fuel →
      (∀ i, a ≤ i → i < a + j → ∃ e, op i = .error e ∧ wantsRetry o e = true) →
      withRetryGo o op a fuel =
        ((withRetryGo o op (a + j) (fuel - j)).1,
          (List.range j).map (fun t => retryDelay o (a + t)) ++
            (withRetryGo o op (a + j) (fuel - j)).2)
  | 0, a, fuel, _, _ => by simp
  | j + 1, a, fuel, hj, hfail => by
    obtain ⟨f, rfl⟩ : ∃ f, fuel = f + 1 := ⟨fuel - 1, by omega⟩
    obtain ⟨e, he, hre⟩ := hfail a (Nat.le_refl a) (by omega)
    have ih := withRetryGo_skip o op j (a + 1) f (by omega)
      (fun i h1 h2 => hfail i (by omega) (by omega))
    have hlist : (List.range (j + 1)).map (fun t => retryDelay o (a + t)) =
        retryDelay o a :: (List.range j).map (fun t => retryDelay o (a + 1 + t)) := by
      rw [List.range_succ_eq_map, List.map_cons, List.map_map]
      simp only [Nat.add_zero]
      congr 1
      refine List.map_congr_left ?_
      intro t _
      simp only [Function.comp_apply]
      congr 1
      omega
    have hroute : a + (j + 1) = a + 1 + j := by omega
    have hfuel : f + 1 - (j + 1) = f - j := by omega
    rw [withRetryGo_retry_step o op a f e he hre, ih, hroute, hfuel, hlist]
    simp

/-- C2: with attempts `1, …, k - 1` all failing retryably, no delay precedes
the first attempt, the delay inserted before attempt `t + 2` equals
`min(initialDelay * backoffFactor ^ t, maxDelay)`, a success at attempt `k`
returns that value after exactly those `k - 1` delays, and a failure at
attempt `k` propagates immediately — with no further delay or attempt — as
soon as the attempt budget is spent or the predicate rejects it. -/
theorem withRetry_backoff_spec {α : Type} (o : WithRetryOptions)
    (op : Nat → Except ErrVal α) (k : Nat) (hk1 : 1 ≤ k) (hkN : k ≤ o.maxAttempts)
    (hfail : ∀ i, 1 ≤ i → i < k → ∃ e, op i = .error e ∧ wantsRetry o e = true) :
    (∀ v, op k = .ok v →
      withRetry o op = (.ok v, (List.range (k - 1)).map
        (fun t => min (o.initialDelay * o.backoffFactor ^ t) o.maxDelay))) ∧
    (∀ e, op k = .error e → (k = o.maxAttempts ∨ wantsRetry o e = false) →
      withRetry o op = (.error e, (List.range (k - 1)).map
        (fun t => min (o.initialDelay * o.backoffFactor ^ t) o.maxDelay))) := by
  have hskip := withRetryGo_skip o op (k - 1) 1 (o.maxAttempts - 1) (by omega)
    (fun i h1 h2 => hfail i h1 (by omega))
  have hone : 1 + (k - 1) = k := by omega
  rw [hone] at hskip
  have hdel : ∀ t : Nat, retryDelay o (1 + t) =
      min (o.initialDelay * o.backoffFactor ^ t) o.maxDelay := by
    intro t
    simp [retryDelay, Nat.add_sub_cancel_left]
  have hmap : (List.range (k - 1)).map (fun t => retryDelay o (1 + t)) =
      (List.range (k - 1)).map
        (fun t => min (o.initialDelay * o.backoffFactor ^ t) o.maxDelay) :=
    List.map_congr_left (fun t _ => hdel t)
  constructor
  · intro v hv
    have hstop := withRetryGo_ok o op k v hv (o.maxAttempts - 1 - (k - 1))
    rw [withRetry, hskip, hstop, hmap]
    simp
  · intro e hv hor
    rcases hor with hmax | hnr
    · have h0 : o.maxAttempts - 1 - (k - 1) = 0 := by omega
      rw [withRetry, hskip, h0, hmap]
      simp [withRetryGo, hv]
    · have hstop := withRetryGo_stop o op k e hv hnr (o.maxAttempts - 1 - (k - 1))
      rw [withRetry, hskip, hstop, hmap]
      simp

/-- C2 witness: three allowed attempts with initial delay 100, factor 3 and
cap 500; retryable failures on attempts 1 and 2 and a success on attempt 3
give exactly the delays 100 and 300. -/
theorem withRetry_backoff_spec_witness :
    1 ≤ 3 ∧ 3 ≤ witnessRetryOptions.maxAttempts ∧
    withRetry witnessRetryOptions witnessRetryOp = (.ok 7, [100, 300]) := by
  have hfail : ∀ i, 1 ≤ i → i < 3 →
      ∃ e, witnessRetryOp i = .error e ∧ wantsRetry witnessRetryOptions e = true := by
    intro i h1 h2
    refine ⟨networkTyped503, ?_, rfl⟩
    interval_cases i <;> rfl
  have h := (withRetry_backoff_spec witnessRetryOptions witnessRetryOp 3
    (by norm_num) (by decide) hfail).1 7 rfl
  refine ⟨by norm_num, by decide, ?_⟩
  rw [h]
  rfl

/-- Evaluation of the orchestrator validation on an android artifact that is
present with a matching extension: only the size check remains. -/
theorem orch_android_eval (n : Nat) :
    orchestratorValidateArtifact "android" { found := true, size := n, extension := ".aab" } =
      if 200 * 1024 * 1024 < n then some artifactTooLargeError else none := rfl

/-- Evaluation of the orchestrator validation on an ios artifact that is
present with a matching extension. -/
theorem orch_ios_eval (n : Nat) :
    orchestratorValidateArtifact "ios" { found := true, size := n, extension := ".ipa" } =
      if 250 * 1024 * 1024 < n then
        some { cls := .deploymentError
               message := "Artifact size exceeds maximum allowed size"
               code := "ARTIFACT_TOO_LARGE", platform := some "ios" }
      else none := rfl

/-- Evaluation of the base deployer validation on an android artifact that is
present with a matching extension. -/
theorem base_android_eval (n : Nat) :
    baseDeployerValidateArtifact ".aab" androidMaxArtifactSize
      { found := true, size := n, extension := ".aab" } =
      if androidMaxArtifactSize < n then false else true := rfl

/-- Evaluation of the base deployer validation on an ios artifact that is
present with a matching extension. -/
theorem base_ios_eval (n : Nat) :
    baseDeployerValidateArtifact ".ipa" iosMaxArtifactSize
      { found := true, size := n, extension := ".ipa" } =
      if iosMaxArtifactSize < n then false else true := rfl

/-- Evaluation of the input-validator artifact pass on a present android
artifact with a matching extension. -/
theorem validator_android_eval (n : Nat) :
    validatorValidateArtifact "android" "app.aab" true (some n) =
      ([], (if 150 * 1024 * 1024 < n then [ArtifactWarning.oversizeAdvisory] else []) ++
           (if n < 1024 * 1024 then [ArtifactWarning.unusuallySmall] else [])) := rfl

/-- Evaluation of the input-validator artifact pass on a present ios artifact
with a matching extension. -/
theorem validator_ios_eval (n : Nat) :
    validatorValidateArtifact "ios" "app.ipa" true (some n) =
      ([], (if 200 * 1024 * 1024 < n then [ArtifactWarning.oversizeAdvisory] else []) ++
           (if n < 1024 * 1024 then [ArtifactWarning.unusuallySmall] else [])) := rfl

/-- C5 counterexample: at exactly one byte over the 200 MiB hard ceiling the
orchestrator validation throws an error with code ARTIFACT_TOO_LARGE whose
dynamic class is DeploymentError, not ArtifactError (the ArtifactError class
exists in the taxonomy but cannot carry this code, its constructor fixes
ARTIFACT_ERROR). -/
theorem artifact_too_large_class_cex :
    orchestratorValidateArtifact "android" oversizedAndroidArtifact =
      some artifactTooLargeError ∧
    artifactTooLargeError.code = "ARTIFACT_TOO_LARGE" ∧
    artifactTooLargeError.cls = .deploymentError ∧
    artifactTooLargeError.cls ≠ .artifactError := by
  decide

/-- C5 amended: every android artifact over the 200 MiB hard ceiling fails
the orchestrator validation with a non-retryable DeploymentError of code
ARTIFACT_TOO_LARGE, and the deployment pipeline then performs no network
call at all. -/
theorem artifact_hard_ceiling_amended (n : Nat) (h : 200 * 1024 * 1024 < n) :
    orchestratorValidateArtifact "android" { found := true, size := n, extension := ".aab" } =
      some artifactTooLargeError ∧
    artifactTooLargeError.code = "ARTIFACT_TOO_LARGE" ∧
    artifactTooLargeError.cls = .deploymentError ∧
    artifactTooLargeError.retryable = false ∧
    ∀ deployBody : Except ErrVal Unit × List String,
      (performDeploymentNet "android"
        { found := true, size := n, extension := ".aab" } deployBody).2 = [] := by
  have hv := orch_android_eval n
  rw [if_pos h] at hv
  refine ⟨hv, rfl, rfl, rfl, ?_⟩
  intro deployBody
  simp [performDeploymentNet, hv]

/-- C5 witness: the ceiling-plus-one-byte artifact. -/
theorem artifact_hard_ceiling_amended_witness :
    200 * 1024 * 1024 < 200 * 1024 * 1024 + 1 ∧
    orchestratorValidateArtifact "android"
      { found := true, size := 200 * 1024 * 1024 + 1, extension := ".aab" } =
      some artifactTooLargeError := by
  have h := artifact_hard_ceiling_amended (200 * 1024 * 1024 + 1) (by omega)
  exact ⟨by omega, h.1⟩

/-- C6 counterexample: a present 1000-byte android artifact with matching
extension lies below the advisory ceiling, yet the input-validation pass
emits the unusually-small warning, so it does not hold that every artifact
below the advisory ceiling with matching extension passes with no warning. -/
theorem advisory_no_warning_cex :
    validatorValidateArtifact "android" "app.aab" true (some 1000) =
      ([], [ArtifactWarning.unusuallySmall]) ∧
    1000 < 150 * 1024 * 1024 ∧
    ([ArtifactWarning.unusuallySmall] : List ArtifactWarning) ≠ [] := by
  refine ⟨?_, by omega, by decide⟩
  rw [validator_android_eval 1000]
  rfl

/-- C6 amended: for a present artifact with matching extension the pass
emits no errors and no warnings exactly on the window from 1 MiB up to the
platform advisory ceiling (150 MiB android, 200 MiB ios); any size above the
advisory ceiling yields only the oversize warning, never an error, and every
size below 1 MiB yields the unusually-small warning on either platform. -/
theorem advisory_window_amended (s₁ s₂ s₃ s₄ s₅ : Nat)
    (h1 : 1024 * 1024 ≤ s₁) (h2 : s₁ ≤ 150 * 1024 * 1024)
    (h3 : 1024 * 1024 ≤ s₂) (h4 : s₂ ≤ 200 * 1024 * 1024)
    (h5 : 150 * 1024 * 1024 < s₃) (h6 : 200 * 1024 * 1024 < s₄)
    (h7 : s₅ < 1024 * 1024) :
    validatorValidateArtifact "android" "app.aab" true (some s₁) = ([], []) ∧
    validatorValidateArtifact "ios" "app.ipa" true (some s₂) = ([], []) ∧
    validatorValidateArtifact "android" "app.aab" true (some s₃) =
      ([], [ArtifactWarning.oversizeAdvisory]) ∧
    validatorValidateArtifact "ios" "app.ipa" true (some s₄) =
      ([], [ArtifactWarning.oversizeAdvisory]) ∧
    validatorValidateArtifact "android" "app.aab" true (some s₅) =
      ([], [ArtifactWarning.unusuallySmall]) ∧
    validatorValidateArtifact "ios" "app.ipa" true (some s₅) =
      ([], [ArtifactWarning.unusuallySmall]) := by
  refine ⟨?_, ?_, ?_, ?_, ?_, ?_⟩
  · rw [validator_android_eval s₁, if_neg (by omega), if_neg (by omega)]
    rfl
  · rw [validator_ios_eval s₂, if_neg (by omega), if_neg (by omega)]
    rfl
  · rw [validator_android_eval s₃, if_pos h5, if_neg (by omega)]
    rfl
  · rw [validator_ios_eval s₄, if_pos h6, if_neg (by omega)]
    rfl
  · rw [validator_android_eval s₅, if_neg (by omega), if_pos h7]
    rfl
  · rw [validator_ios_eval s₅, if_neg (by omega), if_pos h7]
    rfl

/-- C6 witness: 2 MiB sits in the android clean window, 180 MiB in the ios
clean window (above the android ceiling, below the ios one), 160 MiB is
above the android advisory ceiling, 210 MiB above the ios one, and a
500000-byte artifact gets the unusually-small warning on both platforms. -/
theorem advisory_window_amended_witness :
    1024 * 1024 ≤ 2 * 1024 * 1024 ∧ 2 * 1024 * 1024 ≤ 150 * 1024 * 1024 ∧
    1024 * 1024 ≤ 180 * 1024 * 1024 ∧ 180 * 1024 * 1024 ≤ 200 * 1024 * 1024 ∧
    150 * 1024 * 1024 < 160 * 1024 * 1024 ∧ 200 * 1024 * 1024 < 210 * 1024 * 1024 ∧
    500000 < 1024 * 1024 ∧
    validatorValidateArtifact "android" "app.aab" true (some (2 * 1024 * 1024)) = ([], []) ∧
    validatorValidateArtifact "ios" "app.ipa" true (some (180 * 1024 * 1024)) = ([], []) ∧
    validatorValidateArtifact "android" "app.aab" true (some (160 * 1024 * 1024)) =
      ([], [ArtifactWarning.oversizeAdvisory]) ∧
    validatorValidateArtifact "ios" "app.ipa" true (some 500000) =
      ([], [ArtifactWarning.unusuallySmall]) := by
  have h := advisory_window_amended (2 * 1024 * 1024) (180 * 1024 * 1024)
    (160 * 1024 * 1024) (210 * 1024 * 1024) 500000
    (by omega) (by omega) (by omega) (by omega) (by omega) (by omega) (by omega)
  exact ⟨by omega, by omega, by omega, by omega, by omega, by omega, by omega,
    h.1, h.2.1, h.2.2.1, h.2.2.2.2.2⟩

/-- C9: both hard size checks reject only sizes strictly greater than the
platform ceiling, so an artifact of exactly 200 MiB (android) or 250 MiB
(ios) with matching extension passes the orchestrator validation and the
base deployer validation, while one byte more fails. -/
theorem hard_ceiling_boundary_inclusive (n : Nat) :
    (orchestratorValidateArtifact "android"
        { found := true, size := n, extension := ".aab" } = none ↔
      n ≤ androidMaxArtifactSize) ∧
    (orchestratorValidateArtifact "ios"
        { found := true, size := n, extension := ".ipa" } = none ↔
      n ≤ iosMaxArtifactSize) ∧
    (baseDeployerValidateArtifact ".aab" androidMaxArtifactSize
        { found := true, size := n, extension := ".aab" } = true ↔
      n ≤ androidMaxArtifactSize) ∧
    (baseDeployerValidateArtifact ".ipa" iosMaxArtifactSize
        { found := true, size := n, extension := ".ipa" } = true ↔
      n ≤ iosMaxArtifactSize) ∧
    orchestratorValidateArtifact "android"
      { found := true, size := 200 * 1024 * 1024, extension := ".aab" } = none ∧
    orchestratorValidateArtifact "ios"
      { found := true, size := 250 * 1024 * 1024, extension := ".ipa" } = none ∧
    baseDeployerValidateArtifact ".aab" androidMaxArtifactSize
      { found := true, size := 200 * 1024 * 1024, extension := ".aab" } = true ∧
    baseDeployerValidateArtifact ".ipa" iosMaxArtifactSize
      { found := true, size := 250 * 1024 * 1024, extension := ".ipa" } = true ∧
    orchestratorValidateArtifact "android"
      { found := true, size := 200 * 1024 * 1024 + 1, extension := ".aab" } =
      some artifactTooLargeError ∧
    baseDeployerValidateArtifact ".aab" androidMaxArtifactSize
      { found := true, size := 200 * 1024 * 1024 + 1, extension := ".aab" } = false := by
  refine ⟨?_, ?_, ?_, ?_, by decide, by decide, by decide, by decide, by decide, by decide⟩
  · rw [orch_android_eval n]
    unfold androidMaxArtifactSize
    split <;> simp <;> omega
  · rw [orch_ios_eval n]
    unfold iosMaxArtifactSize
    split <;> simp <;> omega
  · rw [base_android_eval n]
    unfold androidMaxArtifactSize
    split <;> simp <;> omega
  · rw [base_ios_eval n]
    unfold iosMaxArtifactSize
    split <;> simp <;> omega

/-- Decoding the base64 character of a sextet recovers the sextet. -/
theorem decodeB64Char_encode : ∀ n : Nat, n < 64 →
    decodeB64Char (encodeB64Char n) = some n := by decide

/-- Encoded base64 characters are never the padding character. -/
theorem encodeB64Char_ne_pad : ∀ n : Nat, n < 64 → encodeB64Char n ≠ '=' := by decide

/-- Group decoding inverts group encoding on byte lists. -/
theorem b64Decode_encode : ∀ bs : List Nat, (∀ x ∈ bs, x < 256) →
    b64DecodeBytes (b64EncodeBytes bs) = some bs
  | [], _ => rfl
  | [a], h => by
    have ha : a < 256 := h a (by simp)
    have h1 := decodeB64Char_encode (a / 4) (by omega)
    have h2 := decodeB64Char_encode (a % 4 * 16) (by omega)
    simp [b64EncodeBytes, b64DecodeBytes, h1, h2]
    omega
  | [a, b], h => by
    have ha : a < 256 := h a (by simp)
    have hb : b < 256 := h b (by simp)
    have h1 := decodeB64Char_encode (a / 4) (by omega)
    have h2 := decodeB64Char_encode (a % 4 * 16 + b / 16) (by omega)
    have h3 := decodeB64Char_encode (b % 16 * 4) (by omega)
    have h3ne := encodeB64Char_ne_pad (b % 16 * 4) (by omega)
    simp [b64EncodeBytes, b64DecodeBytes, h1, h2, h3, h3ne]
    omega
  | a :: b :: c :: rest, h => by
    have ha : a < 256 := h a (by simp)
    have hb : b < 256 := h b (by simp)
    have hc : c < 256 := h c (by simp)
    have ih := b64Decode_encode rest (fun x hx => h x (by simp [hx]))
    have h1 := decodeB64Char_encode (a / 4) (by omega)
    have h2 := decodeB64Char_encode (a % 4 * 16 + b / 16) (by omega)
    have h3 := decodeB64Char_encode (b % 16 * 4 + c / 64) (by omega)
    have h4 := decodeB64Char_encode (c % 64) (by omega)
    have h3ne := encodeB64Char_ne_pad (b % 16 * 4 + c / 64) (by omega)
    have h4ne := encodeB64Char_ne_pad (c % 64) (by omega)
    simp [b64EncodeBytes, b64DecodeBytes, h1, h2, h3, h4, h3ne, h4ne, ih]
    omega

/-- C10: base64-encoding the UTF-8 bytes of a string and decoding them back
is the identity, and `decodeBase64` succeeds on exactly the canonical base64
strings — those that decoding followed by re-encoding reproduces. -/
theorem base64_roundtrip_canonical (bytes : List Nat) (h : ∀ x ∈ bytes, x < 256) :
    decodeBase64 (encodeBase64 bytes) = some bytes ∧
    ∀ s : String, (decodeBase64 s).isSome ↔
      ∃ bs : List Nat, b64DecodeBytes s.data = some bs ∧ encodeBase64 bs = s := by
  constructor
  · have hd : b64DecodeBytes (encodeBase64 bytes).data = some bytes :=
      b64Decode_encode bytes h
    have hvalid : isValidBase64 (encodeBase64 bytes) = true := by
      simp [isValidBase64, hd]
    simp [decodeBase64, hvalid, hd]
  · intro s
    by_cases hv : isValidBase64 s = true
    · have hsome : ∃ bs, b64DecodeBytes s.data = some bs ∧
          (encodeBase64 bs == s) = true := by
        revert hv
        unfold isValidBase64
        cases hbs : b64DecodeBytes s.data with
        | none => intro hv; cases hv
        | some bs => intro hv; exact ⟨bs, rfl, hv⟩
      obtain ⟨bs, hbs, hbeq⟩ := hsome
      have henc : encodeBase64 bs = s := eq_of_beq hbeq
      constructor
      · intro _
        exact ⟨bs, hbs, henc⟩
      · intro _
        simp [decodeBase64, hv, hbs]
    · constructor
      · intro hs
        exfalso
        simp [decodeBase64, hv] at hs
      · rintro ⟨bs, hbs, henc⟩
        exfalso
        apply hv
        unfold isValidBase64
        rw [hbs]
        simp [henc]
/-- C10 witness: the two-byte sequence 72, 105 (the UTF-8 bytes of a short
ASCII string) round-trips through encode and decode. -/
theorem base64_roundtrip_canonical_witness :
    (∀ x ∈ ([72, 105] : List Nat), x < 256) ∧
    decodeBase64 (encodeBase64 [72, 105]) = some [72, 105] :=
  ⟨by decide, (base64_roundtrip_canonical [72, 105] (by decide)).1⟩

/-- C8 witness: concrete failing upload with a successful unlink — the
altool failure is returned, the file was present during the call, and it no
longer exists afterwards. -/
theorem ios_credential_file_scoped_witness :
    iosFailedUploadScenario.keyFileCreate = .ok () ∧
    (performRealAppStoreUpload iosFailedUploadScenario).trace =
      [.keyFileWrite, .altoolInvoke true, .keyFileUnlink true] ∧
    (performRealAppStoreUpload iosFailedUploadScenario).keyFileAtEnd = false := by
  have h := ios_credential_file_scoped iosFailedUploadScenario rfl
  exact ⟨rfl, h.2.1, h.2.2⟩

end PublishStore
